import Mathlib

/-!
Verification of the CEQA warehouse scraper core pipeline
(`src/scraper/ceqa_scraper.py`).

This file gives a shallow embedding of the decision logic of the scraper:
the tiered keyword classifier (`_classify_warehouse`), the location
resolver (`_parse_location`), the date parser (`_extract_date`), the
record assembly in `scrape_project_details`, the geocoding step
(`_geocode_project`, with the external geocoder and its pacing delay made
explicit as an oracle and a sleep counter), and the persistence gateway
(`save_to_database` / `_map_ui_status`, with the store and per-call faults
made explicit).  Python floats are modelled as exact rationals; Python
`None` as `Option.none`; a raised-and-caught exception as an explicit
branch.  All definitions are executable.
-/

/-! ## String utilities (Python `in`, `lower`, `title`, `strip`) -/

/-- Containment of `needle` in a character list, as the Python `in`
operator on strings: true iff `needle` occurs as a contiguous substring. -/
def containsSub (needle : List Char) : List Char → Bool
  | [] => needle.isEmpty
  | c :: t => needle.isPrefixOf (c :: t) || containsSub needle t

/-- Python `needle in hay` for strings. -/
def strContains (hay needle : String) : Bool := containsSub needle.data hay.data

/-- Python `str.lower()` (ASCII case folding suffices for this repository). -/
def pyLower (s : String) : String := ⟨s.data.map Char.toLower⟩

/-- Helper for `pyTitle`: the Bool records whether the previous character
was alphabetic (a cased character). -/
def pyTitleAux : Bool → List Char → List Char
  | _, [] => []
  | prevAlpha, c :: rest =>
    (if c.isAlpha then (if prevAlpha then c.toLower else c.toUpper) else c)
      :: pyTitleAux c.isAlpha rest

/-- Python `str.title()`: uppercase each letter that follows a non-letter,
lowercase the other letters. -/
def pyTitle (s : String) : String := ⟨pyTitleAux false s.data⟩

/-- Python `str.strip()`: drop whitespace from both ends. -/
def pyStrip (s : String) : String :=
  ⟨((s.data.dropWhile Char.isWhitespace).reverse.dropWhile Char.isWhitespace).reverse⟩

/-- Python `x or default` for an optional string: `None` and `""` are both
falsy and give the default. -/
def pyOrStr (v : Option String) (d : String) : String :=
  match v with
  | none => d
  | some s => if s = "" then d else s

/-! ## Data model: the `CEQAProject` dataclass -/

/-- A calendar date as produced by `datetime.strptime` (the time part is
always midnight for the formats used, so only the date is kept). -/
structure PyDate where
  year : Nat
  month : Nat
  day : Nat
deriving DecidableEq, Repr

/-- The `CEQAProject` dataclass (lines 43-63 of the source).  Optional
fields keep their `None` default from the dataclass declaration. -/
structure CEQAProject where
  title : String
  lead_agency : String
  city : String
  county : String
  address : String
  project_description : String
  project_type : String
  document_type : String
  ceqa_status : String
  date_posted : Option PyDate
  comment_deadline : Option PyDate
  ceqa_url : String
  document_urls : List String
  latitude : Option ℚ := none
  longitude : Option ℚ := none
  is_warehouse : Bool := false
  warehouse_confidence : ℚ := 0
  detection_keywords : Option (List String) := none
deriving DecidableEq, Repr

/-! ## Classifier: `_classify_warehouse` and `warehouse_keywords` -/

/-- The `high_confidence` keyword tier (line 87). -/
def warehouse_keywords_high : List String :=
  ["warehouse", "fulfillment", "distribution center", "logistics center"]

/-- The `medium_confidence` keyword tier (line 88). -/
def warehouse_keywords_medium : List String :=
  ["industrial", "cargo", "freight", "supply chain", "e-commerce"]

/-- The `low_confidence` keyword tier (line 89). -/
def warehouse_keywords_low : List String :=
  ["storage", "shipping", "receiving", "inventory"]

/-- Whether keyword `kw` occurs in the (already lowercased) text. -/
def kwMatch (text kw : String) : Bool := strContains text kw

/-- One keyword-tier loop of `_classify_warehouse`: starting from the
running confidence `c0`, add weight `w` once for every keyword of the tier
contained in the text. -/
def tierFold (text : String) (kws : List String) (w : ℚ) (c0 : ℚ) : ℚ :=
  kws.foldl (fun c k => if kwMatch text k then c + w else c) c0

/-- The local variable `confidence` of `_classify_warehouse` after the
three tier loops (weights 0.3, 0.15, 0.05), before clamping. -/
def confidenceRaw (blob : String) : ℚ :=
  let text := pyLower blob
  tierFold text warehouse_keywords_low (5/100)
    (tierFold text warehouse_keywords_medium (15/100)
      (tierFold text warehouse_keywords_high (3/10) 0))

/-- The `keywords_found` list of `_classify_warehouse`: matched keywords
appended in tier order, list order within a tier. -/
def keywords_found (blob : String) : List String :=
  let text := pyLower blob
  warehouse_keywords_high.filter (kwMatch text)
    ++ warehouse_keywords_medium.filter (kwMatch text)
    ++ warehouse_keywords_low.filter (kwMatch text)

/-- `project.warehouse_confidence = min(confidence, 1.0)` (line 392). -/
def warehouse_confidence_of (blob : String) : ℚ := min (confidenceRaw blob) 1

/-- `project.is_warehouse = confidence >= 0.3` (line 393); note the code
compares the unclamped confidence. -/
def is_warehouse_of (blob : String) : Bool := decide ((3 : ℚ)/10 ≤ confidenceRaw blob)

/-- `_classify_warehouse` as a record transformer: the analyzed text blob
is `f"{project.title} {project.project_description}".lower()`. -/
def classify_warehouse (p : CEQAProject) : CEQAProject :=
  let blob := p.title ++ " " ++ p.project_description
  { p with
    warehouse_confidence := warehouse_confidence_of blob
    is_warehouse := is_warehouse_of blob
    detection_keywords := some (keywords_found blob) }

/-- Count of matched high-tier keywords in a blob. -/
def countHigh (blob : String) : Nat :=
  warehouse_keywords_high.countP (kwMatch (pyLower blob))

/-- Count of matched medium-tier keywords in a blob. -/
def countMed (blob : String) : Nat :=
  warehouse_keywords_medium.countP (kwMatch (pyLower blob))

/-- Count of matched low-tier keywords in a blob. -/
def countLow (blob : String) : Nat :=
  warehouse_keywords_low.countP (kwMatch (pyLower blob))

/-- All keywords of the lexicon, in tier order. -/
def all_keywords : List String :=
  warehouse_keywords_high ++ warehouse_keywords_medium ++ warehouse_keywords_low

/-- Whether a keyword matches a blob (after the lowercasing the classifier
performs). -/
def blobMatches (blob k : String) : Bool := kwMatch (pyLower blob) k

/-! ## Location resolver: `_parse_location` and `ie_cities` -/

/-- City list of the `san bernardino` group of `ie_cities` (lines 94-95). -/
def sb_cities : List String :=
  ["fontana", "ontario", "san bernardino", "rialto", "colton",
   "rancho cucamonga", "upland", "chino", "montclair"]

/-- City list of the `riverside` group of `ie_cities` (lines 96-97). -/
def rv_cities : List String :=
  ["riverside", "moreno valley", "perris", "corona", "norco",
   "eastvale", "jurupa valley", "lake elsinore", "menifee"]

/-- The `ie_cities` gazetteer (lines 93-98): county name to ordered city
list, in insertion order. -/
def ie_cities : List (String × List String) :=
  [("san bernardino", sb_cities), ("riverside", rv_cities)]

/-- `_parse_location` (lines 306-331).  The outer `for` over the gazetteer
groups is a fold; the inner `for` with its `break` is `List.find?`.  The
`break` leaves only the inner loop, so a later group can overwrite the
city found by an earlier group. -/
def parse_location (location : String) : String × String :=
  if location = "" then ("", "")
  else
    let location_lower := pyLower location
    let county :=
      if strContains location_lower "san bernardino" then "San Bernardino"
      else if strContains location_lower "riverside" then "Riverside"
      else ""
    ie_cities.foldl
      (fun acc grp =>
        match grp.2.find? (fun cn => strContains location_lower cn) with
        | some cn => (pyTitle cn, if acc.2 = "" then pyTitle grp.1 else acc.2)
        | none => acc)
      ("", county)

/-- First city of a gazetteer group contained in the location string
(the inner loop of `_parse_location` on one group). -/
def cityFindIn (cities : List String) (location : String) : Option String :=
  cities.find? (fun cn => strContains (pyLower location) cn)

/-- The county determined by direct substring check (lines 315-319). -/
def countyDirect (location : String) : String :=
  if strContains (pyLower location) "san bernardino" then "San Bernardino"
  else if strContains (pyLower location) "riverside" then "Riverside"
  else ""

/-- Characterization of the city output of `_parse_location` on nonempty
input: the riverside group is scanned second, so its first match
overwrites any match from the san bernardino group. -/
def parsedCity (location : String) : String :=
  match cityFindIn rv_cities location with
  | some cn => pyTitle cn
  | none =>
    match cityFindIn sb_cities location with
    | some cn => pyTitle cn
    | none => ""

/-- Characterization of the county output of `_parse_location` on
nonempty input: the direct substring check wins; otherwise the county is
backfilled from the first group with a city match. -/
def parsedCounty (location : String) : String :=
  if countyDirect location ≠ "" then countyDirect location
  else if (cityFindIn sb_cities location).isSome then "San Bernardino"
  else if (cityFindIn rv_cities location).isSome then "Riverside"
  else ""

/-- Every name the gazetteer knows: the two county names and all city
names. -/
def gazetteer_names : List String :=
  "san bernardino" :: "riverside" :: (sb_cities ++ rv_cities)

/-! ## Date parser: `_extract_date`

`datetime.strptime` is modelled for the three formats of line 340
(`"%m/%d/%Y"`, `"%Y-%m-%d"`, `"%B %d, %Y"`), following the CPython
`_strptime` regexes: `%m` is `1[0-2]|0[1-9]|[1-9]`, `%d` is
`3[01]|[12]\d|0[1-9]|[1-9]`, `%Y` is exactly four digits, `%B` is a full
month name matched case-insensitively, literal whitespace in the format
matches one or more whitespace characters, the whole input must be
consumed, and an out-of-range calendar date raises `ValueError`, which the
caller catches and treats as no match. -/

/-- Numeric value of a decimal digit character. -/
def digitVal (c : Char) : Nat := c.toNat - 48

/-- The `%m` field: one or two digits, value 1..12, greedy two-digit
match first (safe here because every continuation starts with a
non-digit). -/
def parseMonthNum : List Char → Option (Nat × List Char)
  | '1' :: c :: rest =>
    if '0' ≤ c && c ≤ '2' then some (10 + digitVal c, rest)
    else some (1, c :: rest)
  | '0' :: c :: rest =>
    if '1' ≤ c && c ≤ '9' then some (digitVal c, rest) else none
  | c :: rest =>
    if '1' ≤ c && c ≤ '9' then some (digitVal c, rest) else none
  | [] => none

/-- The `%d` field: one or two digits, value 1..31, greedy two-digit
match first. -/
def parseDayNum : List Char → Option (Nat × List Char)
  | '3' :: c :: rest =>
    if c = '0' || c = '1' then some (30 + digitVal c, rest)
    else some (3, c :: rest)
  | c1 :: c2 :: rest =>
    if (c1 = '1' || c1 = '2') && c2.isDigit then
      some (digitVal c1 * 10 + digitVal c2, rest)
    else if c1 = '0' then
      (if '1' ≤ c2 && c2 ≤ '9' then some (digitVal c2, rest) else none)
    else if '1' ≤ c1 && c1 ≤ '9' then some (digitVal c1, c2 :: rest)
    else none
  | [c] => if '1' ≤ c && c ≤ '9' then some (digitVal c, []) else none
  | [] => none

/-- The `%Y` field: exactly four digits. -/
def parseYear4 : List Char → Option (Nat × List Char)
  | c1 :: c2 :: c3 :: c4 :: rest =>
    if c1.isDigit && c2.isDigit && c3.isDigit && c4.isDigit then
      some (digitVal c1 * 1000 + digitVal c2 * 100 + digitVal c3 * 10 + digitVal c4, rest)
    else none
  | _ => none

/-- Literal whitespace in a strptime format: one or more whitespace
characters. -/
def skipWs : List Char → Option (List Char)
  | c :: rest =>
    if c.isWhitespace then some (rest.dropWhile Char.isWhitespace) else none
  | [] => none

/-- Full month names for `%B`, C locale. -/
def monthNames : List (String × Nat) :=
  [("january", 1), ("february", 2), ("march", 3), ("april", 4),
   ("may", 5), ("june", 6), ("july", 7), ("august", 8),
   ("september", 9), ("october", 10), ("november", 11), ("december", 12)]

/-- Case-insensitive match of a (lowercase) month name at the front of the
input; returns the remaining input. -/
def matchNameCI : List Char → List Char → Option (List Char)
  | [], rest => some rest
  | _ :: _, [] => none
  | n :: ns, c :: rest => if c.toLower = n then matchNameCI ns rest else none

/-- The `%B` field: try each full month name. -/
def parseMonthName : List (String × Nat) → List Char → Option (Nat × List Char)
  | [], _ => none
  | (nm, v) :: rest, cs =>
    match matchNameCI nm.data cs with
    | some r => some (v, r)
    | none => parseMonthName rest cs

/-- Gregorian leap year, as `datetime` uses. -/
def isLeap (y : Nat) : Bool := y % 4 = 0 && (y % 100 ≠ 0 || y % 400 = 0)

/-- Days in a month of a given year. -/
def daysInMonth (y m : Nat) : Nat :=
  if m = 2 then (if isLeap y then 29 else 28)
  else if m = 4 || m = 6 || m = 9 || m = 11 then 30
  else 31

/-- The `datetime` constructor check: year 1..9999, month 1..12, day at
least 1 and at most the length of the month; out of range raises
`ValueError`, modelled as `none`. -/
def mkValidDate (y m d : Nat) : Option PyDate :=
  if 1 ≤ y && y ≤ 9999 && 1 ≤ m && m ≤ 12 && 1 ≤ d && d ≤ daysInMonth y m then
    some ⟨y, m, d⟩
  else none

/-- `strptime` with format `"%m/%d/%Y"` on a whole character list. -/
def parseSlashDate (cs : List Char) : Option PyDate :=
  match parseMonthNum cs with
  | some (m, '/' :: r2) =>
    (match parseDayNum r2 with
     | some (d, '/' :: r4) =>
       (match parseYear4 r4 with
        | some (y, []) => mkValidDate y m d
        | _ => none)
     | _ => none)
  | _ => none

/-- `strptime` with format `"%Y-%m-%d"` on a whole character list. -/
def parseIsoDate (cs : List Char) : Option PyDate :=
  match parseYear4 cs with
  | some (y, '-' :: r2) =>
    (match parseMonthNum r2 with
     | some (m, '-' :: r4) =>
       (match parseDayNum r4 with
        | some (d, []) => mkValidDate y m d
        | _ => none)
     | _ => none)
  | _ => none

/-- `strptime` with format `"%B %d, %Y"` on a whole character list. -/
def parseLongMonthDate (cs : List Char) : Option PyDate :=
  match parseMonthName monthNames cs with
  | some (m, r1) =>
    (match skipWs r1 with
     | some r2 =>
       (match parseDayNum r2 with
        | some (d, ',' :: r4) =>
          (match skipWs r4 with
           | some r5 =>
             (match parseYear4 r5 with
              | some (y, []) => mkValidDate y m d
              | _ => none)
           | none => none)
        | _ => none)
     | none => none)
  | none => none

/-- The three formats of `date_formats` (line 340), in list order. -/
inductive DateFormat where
  | slashFmt
  | isoFmt
  | longMonthFmt
deriving DecidableEq, Repr

/-- The `date_formats` list `["%m/%d/%Y", "%Y-%m-%d", "%B %d, %Y"]`. -/
def date_formats : List DateFormat := [.slashFmt, .isoFmt, .longMonthFmt]

/-- `datetime.strptime(s, fmt)` restricted to the three formats; `none`
models a raised-and-caught `ValueError`. -/
def strptime : DateFormat → String → Option PyDate
  | .slashFmt, s => parseSlashDate s.data
  | .isoFmt, s => parseIsoDate s.data
  | .longMonthFmt, s => parseLongMonthDate s.data

/-- The `for fmt in date_formats` loop of `_extract_date`: first
successful parse wins, otherwise `None`. -/
def tryDateFormats (s : String) : List DateFormat → Option PyDate
  | [] => none
  | f :: rest =>
    match strptime f s with
    | some d => some d
    | none => tryDateFormats s rest

/-- `_extract_date` from the point where the field string is available
(lines 333-349): falsy input (`None` or `""`) gives `None`, otherwise the
stripped string is tried against each format in order. -/
def extract_date (date_str : Option String) : Option PyDate :=
  match date_str with
  | none => none
  | some s => if s = "" then none else tryDateFormats (pyStrip s) date_formats

/-! ## Record assembly: the construction in `scrape_project_details` -/

/-- The `CEQAProject(...)` construction of lines 252-266: each extracted
field is an optional string, defaulted with Python `or`; city and county
come from `_parse_location`; the remaining fields keep their dataclass
defaults. -/
def build_project (title lead_agency location description project_type
    document_type ceqa_status : Option String)
    (date_posted comment_deadline : Option PyDate)
    (ceqa_url : String) (document_urls : List String) : CEQAProject :=
  let cc := parse_location (match location with | none => "" | some s => s)
  { title := pyOrStr title "Unknown Project"
    lead_agency := pyOrStr lead_agency ""
    city := cc.1
    county := cc.2
    address := pyOrStr location ""
    project_description := pyOrStr description ""
    project_type := pyOrStr project_type ""
    document_type := pyOrStr document_type ""
    ceqa_status := pyOrStr ceqa_status ""
    date_posted := date_posted
    comment_deadline := comment_deadline
    ceqa_url := ceqa_url
    document_urls := document_urls }

/-! ## Geocoder adapter: `_geocode_project`

The external Nominatim geocoder is an oracle mapping the index of the
call (0 for the full-address query, 1 for the city fallback) to a reply.
A `timedOut` or `fault` reply models a raised `GeocoderTimedOut` or other
exception: control jumps to the `except` handler, skipping the
`time.sleep(1)` that sits at the end of the `try` block.  The result
carries the updated record, the list of queries issued, and the number of
pacing sleeps executed. -/

/-- Reply of one external geocoding call. -/
inductive GeoReply where
  | found (lat lon : ℚ)
  | noResult
  | timedOut
  | fault
deriving DecidableEq, Repr

/-- `_geocode_project` (lines 399-425). -/
def geocode_project (oracle : Nat → GeoReply) (p : CEQAProject) :
    CEQAProject × List String × Nat :=
  if p.address = "" then (p, [], 0)
  else
    let q1 := p.address ++ ", " ++ p.city ++ ", " ++ p.county ++ " County, CA"
    let q2 := p.city ++ ", CA"
    match oracle 0 with
    | .found la lo =>
      ({ p with latitude := some la, longitude := some lo }, [q1], 1)
    | .noResult =>
      (match oracle 1 with
       | .found la lo =>
         ({ p with latitude := some la, longitude := some lo }, [q1, q2], 1)
       | .noResult => (p, [q1, q2], 1)
       | .timedOut => (p, [q1, q2], 0)
       | .fault => (p, [q1, q2], 0))
    | .timedOut => (p, [q1], 0)
    | .fault => (p, [q1], 0)

/-- Number of external calls `_geocode_project` makes on nonempty
address, by tier: the city fallback tier runs only when the first call
returns no result. -/
def callsExpected (r0 : GeoReply) : Nat :=
  match r0 with
  | .noResult => 2
  | _ => 1

/-- Number of pacing sleeps `_geocode_project` executes on nonempty
address: the sleep sits at the end of the `try` body, so any raising call
skips it. -/
def sleepsExpected (r0 r1 : GeoReply) : Nat :=
  match r0 with
  | .found _ _ => 1
  | .timedOut => 0
  | .fault => 0
  | .noResult =>
    match r1 with
    | .timedOut => 0
    | .fault => 0
    | _ => 1

/-! ## Persistence gateway: `save_to_database` and `_map_ui_status`

The Supabase store is a list of rows keyed by `ceqa_url`; `upsert` with
`on_conflict` replaces the whole row of an existing key.  A per-call
fault oracle (indexed by the position of the record in the batch, one
upsert call per record) models a raised exception in the `try` body; the
`except` logs the title and continues with the next record.  The gateway
output is the final store plus the two log streams it writes: titles
logged by the success branch (only for records flagged as warehouse) and
titles logged by the error handler. -/

/-- `_map_ui_status` (lines 472-481): fixed lookup with default
`"Proposal"`. -/
def map_ui_status (document_type : String) : String :=
  if document_type = "NOP" then "Proposal"
  else if document_type = "IS/MND" then "Under Review"
  else if document_type = "DEIR" then "Under Review"
  else if document_type = "NOD" then "Approved"
  else if document_type = "FEIR" then "Approved"
  else "Proposal"

/-- Zero-padded two-digit decimal. -/
def pad2 (n : Nat) : String := if n < 10 then "0" ++ toString n else toString n

/-- Zero-padded four-digit decimal. -/
def pad4 (n : Nat) : String :=
  if n < 10 then "000" ++ toString n
  else if n < 100 then "00" ++ toString n
  else if n < 1000 then "0" ++ toString n
  else toString n

/-- `datetime.isoformat()` of a midnight datetime. -/
def isoformat (d : PyDate) : String :=
  pad4 d.year ++ "-" ++ pad2 d.month ++ "-" ++ pad2 d.day ++ "T00:00:00"

/-- The flattened key/value data built for one record (lines 437-458). -/
structure Row where
  title : String
  lead_agency : String
  city : String
  county : String
  address : String
  latitude : Option ℚ
  longitude : Option ℚ
  project_description : String
  project_type : String
  document_type : String
  ceqa_status : String
  ui_status : String
  date_posted : Option String
  comment_deadline : Option String
  ceqa_url : String
  document_urls : List String
  is_warehouse : Bool
  warehouse_confidence : ℚ
  detection_keywords : List String
  scrape_date : String
deriving DecidableEq, Repr

/-- Build the `data` dictionary for one project; `today` is
`datetime.now().date().isoformat()`. -/
def rowOf (today : String) (p : CEQAProject) : Row :=
  { title := p.title
    lead_agency := p.lead_agency
    city := p.city
    county := p.county
    address := p.address
    latitude := p.latitude
    longitude := p.longitude
    project_description := p.project_description
    project_type := p.project_type
    document_type := p.document_type
    ceqa_status := p.ceqa_status
    ui_status := map_ui_status p.document_type
    date_posted := p.date_posted.map isoformat
    comment_deadline := p.comment_deadline.map isoformat
    ceqa_url := p.ceqa_url
    document_urls := p.document_urls
    is_warehouse := p.is_warehouse
    warehouse_confidence := p.warehouse_confidence
    detection_keywords := p.detection_keywords.getD []
    scrape_date := today }

/-- The store: rows keyed by `ceqa_url`. -/
abbrev Store := List (String × Row)

/-- Supabase `upsert` with `on_conflict` on the key: full row replacement
when the key exists, append otherwise. -/
def upsert (store : Store) (key : String) (row : Row) : Store :=
  if (List.any store fun e => e.1 = key) then
    List.map (fun e => if e.1 = key then (key, row) else e) store
  else store ++ [(key, row)]

/-- Observable outcome of `save_to_database`: the final store, the titles
logged by the warehouse-success branch, and the titles logged by the
error handler. -/
structure SaveResult where
  store : Store
  savedLog : List String
  errorLog : List String
deriving DecidableEq

/-- The `for project in projects` loop of `save_to_database`; `idx` is
the position of the current record (one upsert call per record), and
`faulty idx` tells whether that upsert call raises. -/
def save_aux (today : String) (faulty : Nat → Bool) :
    Nat → List CEQAProject → SaveResult → SaveResult
  | _, [], acc => acc
  | idx, p :: rest, acc =>
    if faulty idx then
      save_aux today faulty (idx + 1) rest
        { acc with errorLog := acc.errorLog ++ [p.title] }
    else
      save_aux today faulty (idx + 1) rest
        { store := upsert acc.store p.ceqa_url (rowOf today p)
          savedLog := acc.savedLog ++ (if p.is_warehouse then [p.title] else [])
          errorLog := acc.errorLog }

/-- `save_to_database` (lines 427-470) over an initial store. -/
def save_to_database (today : String) (faulty : Nat → Bool)
    (projects : List CEQAProject) (store0 : Store) : SaveResult :=
  save_aux today faulty 0 projects ⟨store0, [], []⟩

/-! ## Concrete records used as inputs of witnesses and counterexamples -/

/-- A record with empty address, not classified as warehouse. -/
def sampleProject : CEQAProject :=
  { title := "A"
    lead_agency := ""
    city := "Fontana"
    county := "San Bernardino"
    address := ""
    project_description := ""
    project_type := ""
    document_type := "NOP"
    ceqa_status := ""
    date_posted := none
    comment_deadline := none
    ceqa_url := "u1"
    document_urls := [] }

/-- The same record with a nonempty address. -/
def sampleProjectAddr : CEQAProject := { sampleProject with address := "123 Main St" }

/-- A second record, distinct identity. -/
def projB : CEQAProject := { sampleProject with title := "B", ceqa_url := "u2" }

/-- A field value the extractor failed to produce: Python `None`, or the
empty string (both falsy for the `or` defaulting). -/
def absentStr (v : Option String) : Prop := v = none ∨ v = some ""

/-! ## Shared lemmas -/

/-- One tier loop adds its weight once per matched keyword of the tier. -/
theorem tierFold_countP (text : String) (kws : List String) (w c0 : ℚ) :
    tierFold text kws w c0 = c0 + w * kws.countP (kwMatch text) := by
  unfold tierFold
  induction kws generalizing c0 with
  | nil => simp
  | cons k rest ih =>
    by_cases h : kwMatch text k
    · simp [List.foldl, h, ih, List.countP_cons]
      ring
    · simp [List.foldl, h, ih, List.countP_cons]

/-- The unclamped confidence is the weighted sum of per-tier match
counts. -/
theorem confidenceRaw_formula (blob : String) :
    confidenceRaw blob
      = (3 : ℚ)/10 * countHigh blob + 15/100 * countMed blob + 5/100 * countLow blob := by
  unfold confidenceRaw countHigh countMed countLow
  rw [tierFold_countP, tierFold_countP, tierFold_countP]
  ring

/-! ## Claims about the classifier -/

/-- Claim C1: for every input text blob, the relevance flag is true iff
the (clamped) relevance score is at least 0.30, boundary inclusive; two
medium-tier matches of weight 0.15 each reach exactly 0.30 and are
classified relevant. -/
theorem claim_C1 :
    (∀ blob : String,
      is_warehouse_of blob = true ↔ (3 : ℚ)/10 ≤ warehouse_confidence_of blob)
    ∧ warehouse_confidence_of "cargo freight" = 3/10
    ∧ is_warehouse_of "cargo freight" = true := by
  refine ⟨fun blob => ?_, ?_, ?_⟩
  · rw [is_warehouse_of, warehouse_confidence_of, decide_eq_true_iff, le_min_iff]
    exact ⟨fun h => ⟨h, by norm_num⟩, fun h => h.1⟩
  · have hH : countHigh "cargo freight" = 0 := by decide
    have hM : countMed "cargo freight" = 2 := by decide
    have hL : countLow "cargo freight" = 0 := by decide
    rw [warehouse_confidence_of, confidenceRaw_formula, hH, hM, hL, min_def]
    norm_num
  · have hH : countHigh "cargo freight" = 0 := by decide
    have hM : countMed "cargo freight" = 2 := by decide
    have hL : countLow "cargo freight" = 0 := by decide
    rw [is_warehouse_of, confidenceRaw_formula, hH, hM, hL, decide_eq_true_iff]
    norm_num

/-- Witness for claim C1: the iff applied at the concrete boundary blob,
with the flag hypothesis discharged by the boundary conjuncts of the
theorem itself. -/
theorem claim_C1_witness :
    (3 : ℚ)/10 ≤ warehouse_confidence_of "cargo freight" :=
  (claim_C1.1 "cargo freight").mp claim_C1.2.2

/-- Claim C2: the relevance score is the weighted sum of per-tier match
counts (0.30 / 0.15 / 0.05 per match) clamped at 1.0, never exceeds 1.0,
and is monotonically non-decreasing as the set of matched keywords
grows. -/
theorem claim_C2 :
    (∀ blob : String,
      warehouse_confidence_of blob
        = min ((3 : ℚ)/10 * countHigh blob + 15/100 * countMed blob + 5/100 * countLow blob) 1)
    ∧ (∀ blob : String, warehouse_confidence_of blob ≤ 1)
    ∧ (∀ b1 b2 : String,
        (∀ k ∈ all_keywords, blobMatches b1 k = true → blobMatches b2 k = true) →
        warehouse_confidence_of b1 ≤ warehouse_confidence_of b2) := by
  refine ⟨fun blob => ?_, fun blob => min_le_right _ _, fun b1 b2 hmono => ?_⟩
  · rw [warehouse_confidence_of, confidenceRaw_formula]
  · have hH : countHigh b1 ≤ countHigh b2 :=
      List.countP_mono_left fun k hk => hmono k (by simp [all_keywords, hk])
    have hM : countMed b1 ≤ countMed b2 :=
      List.countP_mono_left fun k hk => hmono k (by simp [all_keywords, hk])
    have hL : countLow b1 ≤ countLow b2 :=
      List.countP_mono_left fun k hk => hmono k (by simp [all_keywords, hk])
    have hraw : confidenceRaw b1 ≤ confidenceRaw b2 := by
      rw [confidenceRaw_formula, confidenceRaw_formula]
      have cH : (countHigh b1 : ℚ) ≤ countHigh b2 := Nat.cast_le.mpr hH
      have cM : (countMed b1 : ℚ) ≤ countMed b2 := Nat.cast_le.mpr hM
      have cL : (countLow b1 : ℚ) ≤ countLow b2 := Nat.cast_le.mpr hL
      have w1 : (0 : ℚ) ≤ 3/10 := by norm_num
      have w2 : (0 : ℚ) ≤ 15/100 := by norm_num
      have w3 : (0 : ℚ) ≤ 5/100 := by norm_num
      exact add_le_add (add_le_add (mul_le_mul_of_nonneg_left cH w1)
        (mul_le_mul_of_nonneg_left cM w2)) (mul_le_mul_of_nonneg_left cL w3)
    exact min_le_min hraw le_rfl

/-- Witness for claim C2: monotonicity applied to the concrete pair of
blobs "cargo" and "cargo freight", whose matched-keyword sets are
nested. -/
theorem claim_C2_witness :
    warehouse_confidence_of "cargo" ≤ warehouse_confidence_of "cargo freight" :=
  claim_C2.2.2 "cargo" "cargo freight" (by decide)

/-- Claim C3 fails on the code: the blob does not contain the substring
"distribution center" (it says "Distribution Facility"), so only
"fulfillment" matches and the score is 0.30, not at least 0.60. -/
theorem claim_C3_counterexample :
    ¬ ((3 : ℚ)/5 ≤ warehouse_confidence_of "New Fulfillment Center and Distribution Facility")
    ∧ "distribution center" ∉ keywords_found "New Fulfillment Center and Distribution Facility" := by
  constructor
  · have hH : countHigh "New Fulfillment Center and Distribution Facility" = 1 := by decide
    have hM : countMed "New Fulfillment Center and Distribution Facility" = 0 := by decide
    have hL : countLow "New Fulfillment Center and Distribution Facility" = 0 := by decide
    rw [warehouse_confidence_of, confidenceRaw_formula, hH, hM, hL, min_def]
    norm_num
  · decide

/-- Claim C3 amended: on the blob "New Fulfillment Center and Distribution
Facility" the only matched keyword is the tier-A term "fulfillment"
("distribution center" does not occur as a substring), giving a relevance
score of exactly 0.30 and a relevance flag of true. -/
theorem claim_C3 :
    warehouse_confidence_of "New Fulfillment Center and Distribution Facility" = 3/10
    ∧ is_warehouse_of "New Fulfillment Center and Distribution Facility" = true
    ∧ keywords_found "New Fulfillment Center and Distribution Facility" = ["fulfillment"] := by
  have hH : countHigh "New Fulfillment Center and Distribution Facility" = 1 := by decide
  have hM : countMed "New Fulfillment Center and Distribution Facility" = 0 := by decide
  have hL : countLow "New Fulfillment Center and Distribution Facility" = 0 := by decide
  refine ⟨?_, ?_, by decide⟩
  · rw [warehouse_confidence_of, confidenceRaw_formula, hH, hM, hL, min_def]
    norm_num
  · rw [is_warehouse_of, confidenceRaw_formula, hH, hM, hL, decide_eq_true_iff]
    norm_num

/-! ## Claims about the location resolver -/

/-- Full characterization of `_parse_location` on nonempty input: the
county comes from the direct substring check, else is backfilled from the
first group with a city match; the city is the first match of the last
group that has one, because the `break` leaves only the inner loop. -/
theorem parse_location_characterization (loc : String) (h : loc ≠ "") :
    parse_location loc = (parsedCity loc, parsedCounty loc) := by
  have hT1 : pyTitle "san bernardino" = "San Bernardino" := by decide
  have hT2 : pyTitle "riverside" = "Riverside" := by decide
  have hne1 : ("San Bernardino" : String) ≠ "" := by decide
  have hne2 : ("Riverside" : String) ≠ "" := by decide
  unfold parse_location parsedCity parsedCounty cityFindIn countyDirect
  rw [if_neg h]
  simp only [ie_cities, List.foldl]
  by_cases hA : strContains (pyLower loc) "san bernardino" = true <;>
  by_cases hB : strContains (pyLower loc) "riverside" = true <;>
  rcases hsb : List.find? (fun cn => strContains (pyLower loc) cn) sb_cities with _ | cn1 <;>
  rcases hrv : List.find? (fun cn => strContains (pyLower loc) cn) rv_cities with _ | cn2 <;>
  simp [hA, hB, hsb, hrv, hT1, hT2, hne1, hne2]

/-- Claim C4 fails on the code: in "fontana corona" the first contained
city in gazetteer scan order is "fontana" (first group, first list
entry), but the resolver returns "Corona", because the `break` of the
inner loop does not leave the outer loop and the riverside group
overwrites the city. -/
theorem claim_C4_counterexample :
    cityFindIn sb_cities "fontana corona" = some "fontana"
    ∧ pyTitle "fontana" = "Fontana"
    ∧ parse_location "fontana corona" = ("Corona", "San Bernardino")
    ∧ (parse_location "fontana corona").1 ≠ "Fontana" := by decide

/-- Claim C4 amended: when city names are contained in both gazetteer
groups, the resolver returns the first match of the last (riverside)
group, title-cased, while a missing county is backfilled from the first
group with a match; when only one group has a match, its first match is
returned and backfills the county. -/
theorem claim_C4 :
    (∀ loc : String, loc ≠ "" → ∀ c1 c2 : String,
      cityFindIn sb_cities loc = some c1 → cityFindIn rv_cities loc = some c2 →
      parse_location loc
        = (pyTitle c2,
           if countyDirect loc ≠ "" then countyDirect loc else "San Bernardino"))
    ∧ (∀ loc : String, loc ≠ "" → ∀ c1 : String,
        cityFindIn sb_cities loc = some c1 → cityFindIn rv_cities loc = none →
        parse_location loc
          = (pyTitle c1,
             if countyDirect loc ≠ "" then countyDirect loc else "San Bernardino"))
    ∧ (∀ loc : String, loc ≠ "" → ∀ c2 : String,
        cityFindIn sb_cities loc = none → cityFindIn rv_cities loc = some c2 →
        parse_location loc
          = (pyTitle c2,
             if countyDirect loc ≠ "" then countyDirect loc else "Riverside")) := by
  refine ⟨fun loc h c1 c2 hsb hrv => ?_, fun loc h c1 hsb hrv => ?_,
    fun loc h c2 hsb hrv => ?_⟩ <;>
  · rw [parse_location_characterization loc h]
    unfold parsedCity parsedCounty
    rw [hsb, hrv]
    simp

/-- Witness for claim C4: the amended description applied to the concrete
input "fontana corona". -/
theorem claim_C4_witness :
    parse_location "fontana corona" = ("Corona", "San Bernardino") :=
  (claim_C4.1 "fontana corona" (by decide) "fontana" "corona" (by decide)
    (by decide)).trans (by decide)

/-- Claim C5: the resolver is total (the embedding is a Lean function,
so it never raises), its county output is always the empty string or one
of the two gazetteer county names, input containing no known city or
county substring resolves to a pair of empty strings, and so does empty
input. -/
theorem claim_C5 :
    (∀ loc : String,
      (parse_location loc).2 = "" ∨ (parse_location loc).2 = "San Bernardino"
        ∨ (parse_location loc).2 = "Riverside")
    ∧ (∀ loc : String,
        (∀ n ∈ gazetteer_names, strContains (pyLower loc) n = false) →
        parse_location loc = ("", ""))
    ∧ parse_location "" = ("", "") := by
  refine ⟨fun loc => ?_, fun loc hno => ?_, by decide⟩
  · by_cases hl : loc = ""
    · subst hl
      left
      decide
    · rw [parse_location_characterization loc hl]
      simp only [parsedCounty, countyDirect]
      split_ifs <;> simp
  · by_cases hl : loc = ""
    · subst hl
      decide
    · have h1 : strContains (pyLower loc) "san bernardino" = false :=
        hno _ (by decide)
      have h2 : strContains (pyLower loc) "riverside" = false :=
        hno _ (by decide)
      have hsb : cityFindIn sb_cities loc = none := by
        unfold cityFindIn
        rw [List.find?_eq_none]
        intro x hx
        have hmem : x ∈ gazetteer_names := by
          simp only [gazetteer_names, List.mem_cons, List.mem_append]
          tauto
        simp [hno x hmem]
      have hrv : cityFindIn rv_cities loc = none := by
        unfold cityFindIn
        rw [List.find?_eq_none]
        intro x hx
        have hmem : x ∈ gazetteer_names := by
          simp only [gazetteer_names, List.mem_cons, List.mem_append]
          tauto
        simp [hno x hmem]
      rw [parse_location_characterization loc hl]
      unfold parsedCity parsedCounty countyDirect
      rw [hsb, hrv, h1, h2]
      simp

/-- Witness for claim C5: an input with no gazetteer substring resolves
to a pair of empty strings. -/
theorem claim_C5_witness : parse_location "hello" = ("", "") :=
  claim_C5.2.1 "hello" (by decide)

/-! ## Claim about the date parser -/

/-- Claim C7: the parser tries the numeric slash format, then ISO, then
long-month, in that order, returning the first successful parse;
"03/15/2024" parses to 2024-03-15; when no format matches the result is
absence (and the embedding is a total function, so no fault is ever
raised); falsy input is also absence. -/
theorem claim_C7 :
    extract_date (some "03/15/2024") = some ⟨2024, 3, 15⟩
    ∧ (∀ (s : String) (d : PyDate), s ≠ "" →
        strptime DateFormat.slashFmt (pyStrip s) = some d →
        extract_date (some s) = some d)
    ∧ (∀ (s : String) (d : PyDate), s ≠ "" →
        strptime DateFormat.slashFmt (pyStrip s) = none →
        strptime DateFormat.isoFmt (pyStrip s) = some d →
        extract_date (some s) = some d)
    ∧ (∀ (s : String) (d : PyDate), s ≠ "" →
        strptime DateFormat.slashFmt (pyStrip s) = none →
        strptime DateFormat.isoFmt (pyStrip s) = none →
        strptime DateFormat.longMonthFmt (pyStrip s) = some d →
        extract_date (some s) = some d)
    ∧ (∀ s : String,
        (∀ f ∈ date_formats, strptime f (pyStrip s) = none) →
        extract_date (some s) = none)
    ∧ extract_date none = none := by
  refine ⟨by decide, ?_, ?_, ?_, ?_, rfl⟩
  · intro s d hs h1
    simp [extract_date, hs, date_formats, tryDateFormats, h1]
  · intro s d hs h1 h2
    simp [extract_date, hs, date_formats, tryDateFormats, h1, h2]
  · intro s d hs h1 h2 h3
    simp [extract_date, hs, date_formats, tryDateFormats, h1, h2, h3]
  · intro s hall
    by_cases hs : s = ""
    · subst hs
      rfl
    · have h1 := hall DateFormat.slashFmt (by decide)
      have h2 := hall DateFormat.isoFmt (by decide)
      have h3 := hall DateFormat.longMonthFmt (by decide)
      simp [extract_date, hs, date_formats, tryDateFormats, h1, h2, h3]

/-- Witness for claim C7: the format-priority and no-match parts applied
at concrete inputs. -/
theorem claim_C7_witness :
    extract_date (some "2024-03-15") = some ⟨2024, 3, 15⟩
    ∧ extract_date (some "not a date") = none :=
  ⟨claim_C7.2.2.1 "2024-03-15" ⟨2024, 3, 15⟩ (by decide) (by decide) (by decide),
   claim_C7.2.2.2.2.1 "not a date" (by decide)⟩

/-! ## Claims about the geocoding step -/

/-- Claim C6: a record with empty address undergoes no geocoding attempt
(no query is issued, no pacing sleep runs) and the record — latitude and
longitude included — is returned unchanged, whatever the external
geocoder would have replied. -/
theorem claim_C6 (oracle : Nat → GeoReply) (p : CEQAProject)
    (h : p.address = "") :
    geocode_project oracle p = (p, [], 0) := by
  unfold geocode_project
  rw [if_pos h]

/-- Witness for claim C6: the empty-address record is passed through
untouched. -/
theorem claim_C6_witness :
    geocode_project (fun _ => GeoReply.noResult) sampleProject
      = (sampleProject, [], 0) :=
  claim_C6 (fun _ => GeoReply.noResult) sampleProject rfl

/-- Claim C8 fails on the code: the pacing sleep sits at the end of the
`try` body, so a timeout on the first call makes one geocoding attempt
and executes zero pacing delays. -/
theorem claim_C8_counterexample :
    (geocode_project (fun _ => GeoReply.timedOut) sampleProjectAddr).2.1.length = 1
    ∧ (geocode_project (fun _ => GeoReply.timedOut) sampleProjectAddr).2.2 = 0
    ∧ ¬ (1 ≤ (geocode_project (fun _ => GeoReply.timedOut) sampleProjectAddr).2.2) := by
  decide

/-- Claim C8 amended: on nonempty address exactly one external call is
made per tier attempted (the second tier only when the first call
returns no result), and the fixed pacing delay runs exactly once after
the attempts when no call raised — on a timeout or provider fault the
delay is skipped. -/
theorem claim_C8 (oracle : Nat → GeoReply) (p : CEQAProject)
    (h : p.address ≠ "") :
    (geocode_project oracle p).2.1.length = callsExpected (oracle 0)
    ∧ (geocode_project oracle p).2.2 = sleepsExpected (oracle 0) (oracle 1) := by
  unfold geocode_project callsExpected sleepsExpected
  rw [if_neg h]
  rcases h0 : oracle 0 with la | _ | _ | _
  · simp [h0]
  · rcases h1 : oracle 1 with la | _ | _ | _ <;> simp [h0, h1]
  · simp [h0]
  · simp [h0]

/-- Witness for claim C8: both calls return no result, so two attempts
are made and one pacing delay runs. -/
theorem claim_C8_witness :
    (geocode_project (fun _ => GeoReply.noResult) sampleProjectAddr).2.1.length
        = callsExpected GeoReply.noResult
    ∧ (geocode_project (fun _ => GeoReply.noResult) sampleProjectAddr).2.2
        = sleepsExpected GeoReply.noResult GeoReply.noResult :=
  claim_C8 (fun _ => GeoReply.noResult) sampleProjectAddr (by decide)

/-! ## Claims about the persistence gateway -/

/-- Characterization of the save loop: starting at position `idx`, the
non-faulty records are upserted in order, the titles of non-faulty
warehouse records extend the success log, and the titles of faulty
records extend the error log. -/
theorem save_aux_characterization (today : String) (faulty : Nat → Bool)
    (ps : List CEQAProject) :
    ∀ (idx : Nat) (acc : SaveResult),
    save_aux today faulty idx ps acc =
      { store := ((ps.enumFrom idx).filter (fun e => !faulty e.1)).foldl
          (fun st e => upsert st e.2.ceqa_url (rowOf today e.2)) acc.store
        savedLog := acc.savedLog ++ (((ps.enumFrom idx).filter
          (fun e => !faulty e.1 && e.2.is_warehouse)).map (fun e => e.2.title))
        errorLog := acc.errorLog ++ (((ps.enumFrom idx).filter
          (fun e => faulty e.1)).map (fun e => e.2.title)) } := by
  induction ps with
  | nil => intro idx acc; simp [save_aux, List.enumFrom]
  | cons p rest ih =>
    intro idx acc
    have hef : List.enumFrom idx (p :: rest) = (idx, p) :: List.enumFrom (idx + 1) rest := rfl
    rw [hef]
    by_cases hf : faulty idx = true
    · rw [save_aux, if_pos hf, ih]
      simp [List.filter_cons, hf, List.append_assoc]
    · rw [save_aux, if_neg hf, ih]
      simp only [Bool.not_eq_true] at hf
      by_cases hw : p.is_warehouse = true <;>
        simp [List.filter_cons, hf, hw, List.append_assoc]

/-- Claim C9 fails on the code: with a non-warehouse record that persists
fine and a second record whose upsert faults, the batch does continue
(the first record reaches the store) and the fault is logged, but no
success is reported for the first record — the success branch logs only
warehouse-flagged records, and by title, not identity. -/
theorem claim_C9_counterexample :
    (save_to_database "2026-10-12" (fun i => decide (i = 1))
        [sampleProject, projB] []).store.map Prod.fst = ["u1"]
    ∧ (save_to_database "2026-10-12" (fun i => decide (i = 1))
        [sampleProject, projB] []).savedLog = []
    ∧ (save_to_database "2026-10-12" (fun i => decide (i = 1))
        [sampleProject, projB] []).errorLog = ["B"] := by decide

/-- Claim C9 amended: a fault while persisting one record never aborts
the batch — the final store is exactly the fold of upserts over the
non-faulty records in order; the error log lists exactly the titles of
the faulty records; the success log lists only the titles of non-faulty
records flagged as warehouse (no per-identity success report is
produced). -/
theorem claim_C9 (today : String) (faulty : Nat → Bool)
    (projects : List CEQAProject) (store0 : Store) :
    save_to_database today faulty projects store0 =
      { store := ((projects.enumFrom 0).filter (fun e => !faulty e.1)).foldl
          (fun st e => upsert st e.2.ceqa_url (rowOf today e.2)) store0
        savedLog := ((projects.enumFrom 0).filter
          (fun e => !faulty e.1 && e.2.is_warehouse)).map (fun e => e.2.title)
        errorLog := ((projects.enumFrom 0).filter
          (fun e => faulty e.1)).map (fun e => e.2.title) } := by
  unfold save_to_database
  rw [save_aux_characterization]
  simp

/-! ## Claims about record assembly -/

/-- Claim C10 fails on the code: a record whose title could not be
extracted gets the placeholder "Unknown Project", not the empty
string. -/
theorem claim_C10_counterexample :
    (build_project none none none none none none none none none "u" []).title
        = "Unknown Project"
    ∧ (build_project none none none none none none none none none "u" []).title ≠ "" := by
  decide

/-- Claim C10 amended: every descriptive field except the title defaults
to the empty string when its value is absent (Python `None` or empty);
the title alone defaults to the placeholder "Unknown Project".  No field
is ever null: all descriptive fields are plain strings by construction. -/
theorem claim_C10 (t la lo de pt dt cs : Option String)
    (dp cd : Option PyDate) (url : String) (urls : List String) :
    (absentStr la → (build_project t la lo de pt dt cs dp cd url urls).lead_agency = "")
    ∧ (absentStr lo → (build_project t la lo de pt dt cs dp cd url urls).address = "")
    ∧ (absentStr de → (build_project t la lo de pt dt cs dp cd url urls).project_description = "")
    ∧ (absentStr pt → (build_project t la lo de pt dt cs dp cd url urls).project_type = "")
    ∧ (absentStr dt → (build_project t la lo de pt dt cs dp cd url urls).document_type = "")
    ∧ (absentStr cs → (build_project t la lo de pt dt cs dp cd url urls).ceqa_status = "")
    ∧ (absentStr t → (build_project t la lo de pt dt cs dp cd url urls).title = "Unknown Project") := by
  refine ⟨?_, ?_, ?_, ?_, ?_, ?_, ?_⟩ <;>
  · rintro (rfl | rfl) <;> simp [build_project, pyOrStr]

/-- Witness for claim C10: an absent lead agency becomes the empty
string. -/
theorem claim_C10_witness :
    (build_project none none none none none none none none none "u" []).lead_agency = "" :=
  (claim_C10 none none none none none none none none none "u" []).1 (Or.inl rfl)
